import Mathlib

/-!
Verification of the Orbis Scanner contract-analysis core
(`src/api/main.py`) against its natural-language specification.

The Python code is shallowly embedded: each Python function used by the
claims becomes a Lean definition over explicit data. Python strings are
modelled through their character lists (`String.data`); the model of
`str.lower`, `str.strip` and `int(s, 16)` covers the ASCII character
range (CPython additionally maps Unicode decimal digits and Unicode
spaces to their ASCII counterparts before parsing, which no claim
exercises).
-/

/-- Model of the Python substring test `pat in l` restricted to the case
where `pat` stands at the head of `l` (used for `str.startswith`). -/
def leadsWith : List Char → List Char → Bool
  | [], _ => true
  | _ :: _, [] => false
  | p :: ps, c :: cs => p == c && leadsWith ps cs

/-- Model of the Python substring containment test `pat in l`. -/
def hasSub (pat : List Char) : List Char → Bool
  | [] => leadsWith pat []
  | c :: rest => leadsWith pat (c :: rest) || hasSub pat rest

/-- ASCII model of `str.lower` on a single character. -/
def lowerChar (c : Char) : Char :=
  if decide ('A' ≤ c) && decide (c ≤ 'Z') then Char.ofNat (c.toNat + 32) else c

/-- ASCII model of `str.lower`. -/
def strLower (s : String) : String := ⟨s.data.map lowerChar⟩

/-- Substring containment on strings, as in the Python expression
`keyword in name`. -/
def strHas (hay pat : String) : Bool := hasSub pat.data hay.data

/-- One entry of a contract ABI, keeping exactly the fields the code and
the specification mention: the `type` marker, the function name, the
number of declared inputs, and the state mutability (which is present in
real ABI documents; whether the code reads it is part of what is checked
here). `none` models an absent JSON field. -/
structure AbiItem where
  type : Option String
  name : Option String
  inputs : Nat
  stateMutability : Option String
deriving Repr, DecidableEq

/-- The accumulator dictionary built by `analyze_contract_abi`
(`src/api/main.py`, lines 76-83). -/
structure AnalysisResults where
  has_mint : Bool
  has_ownership : Bool
  has_hidden_taxes : Bool
  owner_functions : List String
  tax_functions : List String
  mint_functions : List String
deriving Repr, DecidableEq

/-- The initial (all-empty) accumulator, also used verbatim by the
degraded not-verified bundle (lines 164-171). -/
def emptyResults : AnalysisResults :=
  { has_mint := false, has_ownership := false, has_hidden_taxes := false,
    owner_functions := [], tax_functions := [], mint_functions := [] }

/-- `mint_keywords` from line 89 of the source. -/
def mint_keywords : List String := ["mint", "createtokens", "generatetokens"]

/-- `owner_keywords` from line 94 of the source. -/
def owner_keywords : List String :=
  ["transferownership", "renounceownership", "setowner", "updateowner",
   "addowner", "removeowner"]

/-- `tax_keywords` from line 99 of the source. -/
def tax_keywords : List String :=
  ["setfee", "settax", "updatefee", "updatetax", "setcommission"]

/-- The mint branch of the loop body (lines 90-92): substring match of a
mint keyword in the lowered name, plus a nonzero input count. -/
def applyMint (name : String) (inputs : Nat) (r : AnalysisResults) : AnalysisResults :=
  if (mint_keywords.any fun kw => strHas name kw) && decide (0 < inputs) then
    { r with has_mint := true, mint_functions := r.mint_functions ++ [name] }
  else r

/-- The ownership branch of the loop body (lines 95-97). -/
def applyOwner (name : String) (r : AnalysisResults) : AnalysisResults :=
  if owner_keywords.any fun kw => strHas name kw then
    { r with has_ownership := true, owner_functions := r.owner_functions ++ [name] }
  else r

/-- The tax branch of the loop body (lines 100-102). -/
def applyTax (name : String) (r : AnalysisResults) : AnalysisResults :=
  if tax_keywords.any fun kw => strHas name kw then
    { r with has_hidden_taxes := true, tax_functions := r.tax_functions ++ [name] }
  else r

/-- One iteration of the loop in `analyze_contract_abi` (lines 85-102):
items whose `type` is not exactly `"function"` are skipped; for the rest
the lowered name (with `item.get('name', '')` defaulting) runs through
the three keyword branches in source order. -/
def processItem (r : AnalysisResults) (item : AbiItem) : AnalysisResults :=
  if item.type == some "function" then
    let name := strLower (item.name.getD "")
    applyTax name (applyOwner name (applyMint name item.inputs r))
  else r

/-- Model of `analyze_contract_abi` (lines 75-104). -/
def analyze_contract_abi (contract_abi : List AbiItem) : AnalysisResults :=
  contract_abi.foldl processItem emptyResults

/-- The score accumulation of lines 180-183: start at 0, add 30 for
mint, 40 for ownership, 30 for hidden taxes. Python integers are
unbounded and signed, hence `Int`. -/
def computeRiskScore (a : AnalysisResults) : Int :=
  let s : Int := 0
  let s := if a.has_mint then s + 30 else s
  let s := if a.has_ownership then s + 40 else s
  let s := if a.has_hidden_taxes then s + 30 else s
  s

/-- The verdict selection of lines 185-192. -/
def verdictOf (risk_score : Int) : String :=
  if risk_score == 0 then "✅ LOW RISK: No critical issues found"
  else if 70 ≤ risk_score then "🚨 CRITICAL RISK: High probability of scam"
  else if 30 ≤ risk_score then "⚠️ MEDIUM RISK: Multiple red flags detected"
  else "✅ LOW RISK: No critical issues found"

/-- The response dictionary of the `/analyze` endpoint (lines 162-175
and 194-200). -/
structure AnalyzeResult where
  address : String
  analysis : AnalysisResults
  risk_score : Int
  verdict : String
  source : String
deriving Repr, DecidableEq

/-- The fixed degraded bundle returned when the upstream reports no ABI
or an unverified contract (lines 161-175). -/
def notVerifiedResult (contract_address : String) : AnalyzeResult :=
  { address := contract_address,
    analysis := emptyResults,
    risk_score := 0,
    verdict := "❓ Cannot analyze: Contract not verified or ABI not available",
    source := "Etherscan API" }

/-- The successful-analysis bundle (lines 176-200): analyze the ABI,
score it, pick the verdict. -/
def analyzedResult (contract_address : String) (contract_abi : List AbiItem) : AnalyzeResult :=
  let analysis := analyze_contract_abi contract_abi
  let risk_score := computeRiskScore analysis
  { address := contract_address,
    analysis := analysis,
    risk_score := risk_score,
    verdict := verdictOf risk_score,
    source := "Etherscan API (Live)" }

/-- What the Etherscan fetch collaborator reports back: either a parsed
ABI, or the not-verified / no-ABI signal (`status != '1'` or empty
`result`, line 161). -/
inductive FetchOutcome where
  | notVerified
  | verified (contract_abi : List AbiItem)
deriving Repr, DecidableEq

/-- The orchestration step of lines 161-200: choose the degraded bundle
or the analyzed bundle from the fetch outcome. -/
def analyze_bundle (contract_address : String) : FetchOutcome → AnalyzeResult
  | FetchOutcome.notVerified => notVerifiedResult contract_address
  | FetchOutcome.verified contract_abi => analyzedResult contract_address contract_abi

/-- ASCII model of the whitespace characters stripped by Python `int`
and `str.strip`. -/
def isPySpace (c : Char) : Bool :=
  c == ' ' || c == '\t' || c == '\n' || c == '\r' || c == '\x0b' || c == '\x0c'

/-- Removes the maximal run of whitespace at the end of a character
list. -/
def dropEndSpace : List Char → List Char
  | [] => []
  | c :: rest =>
    let r := dropEndSpace rest
    if r.isEmpty && isPySpace c then [] else c :: r

/-- Hexadecimal digit in either case, as accepted by `int(s, 16)`. -/
def isHexCh (c : Char) : Bool :=
  c.isDigit || (decide ('a' ≤ c) && decide (c ≤ 'f'))
    || (decide ('A' ≤ c) && decide (c ≤ 'F'))

/-- The digit part of a Python base-16 integer after the optional base
marker: groups of one hexadecimal digit each optionally led by a single
underscore (CPython permits an underscore between digits and directly
after the base marker, but no doubled, leading-without-marker or
trailing underscore). The empty list is handled by the callers. -/
def hexGroups : List Char → Bool
  | [] => true
  | '_' :: rest =>
    match rest with
    | [] => false
    | c :: rest2 => isHexCh c && hexGroups rest2
  | c :: rest => isHexCh c && hexGroups rest

/-- A Python base-16 digit sequence with no base marker before it: must
be nonempty and must not begin with an underscore. -/
def bareHexBody (l : List Char) : Bool :=
  match l with
  | [] => false
  | '_' :: _ => false
  | _ :: _ => hexGroups l

/-- Removes the one optional sign character accepted by `int`. -/
def stripSign (l : List Char) : List Char :=
  match l with
  | c :: rest => if c == '+' || c == '-' then rest else c :: rest
  | [] => []

/-- A Python base-16 number after whitespace and sign handling: either
a `0x`/`0X` base marker followed by a nonempty underscore-grouped digit
sequence, or a bare digit sequence. -/
def hexNumOk (l : List Char) : Bool :=
  match l with
  | '0' :: c :: rest =>
    if c == 'x' || c == 'X' then !rest.isEmpty && hexGroups rest
    else bareHexBody ('0' :: c :: rest)
  | _ => bareHexBody l

/-- ASCII model of the success of `int(s, 16)`: strip whitespace on both
ends, allow one sign character, allow a `0x`/`0X` base marker, then
demand a nonempty underscore-grouped hexadecimal digit sequence. -/
def pyHexIntOk (s : String) : Bool :=
  hexNumOk (stripSign (dropEndSpace (s.data.dropWhile isPySpace)))

/-- Model of `is_valid_ethereum_address` (lines 119-129): the address
must start with the two characters `0x`, have length 42, and be
accepted by `int(address, 16)`. -/
def is_valid_ethereum_address (address : String) : Bool :=
  leadsWith ['0', 'x'] address.data
    && address.data.length == 42
    && pyHexIntOk address

/-- ASCII model of `str.strip` (used on line 154). -/
def pyStrip (s : String) : String := ⟨dropEndSpace (s.data.dropWhile isPySpace)⟩

/-- The `/analyze` endpoint from the address-validation step onward
(lines 147-202): an invalid address is refused with HTTP status 400
before the fetch outcome is ever consulted; otherwise the address is
lowered and stripped (line 154) and the bundle is computed from the
fetch outcome. The authentication, rate-limit and logging collaborators
that precede validation are outside the analysis core. -/
def analyze_endpoint (contract_address : String) (f : FetchOutcome) :
    Except (Nat × String) AnalyzeResult :=
  if is_valid_ethereum_address contract_address then
    Except.ok (analyze_bundle (pyStrip (strLower contract_address)) f)
  else
    Except.error (400, "Invalid Ethereum address format")

/-- True when the descriptor counts as state-changing in the sense of
the specification (`mutability == other`, i.e. neither view nor
pure). -/
def isStateChanging (d : AbiItem) : Bool :=
  d.stateMutability != some "view" && d.stateMutability != some "pure"

/-- The DangerousMint rule exactly as the specification states it
(claim C1): state-changing, at least one input, lowered name equal to
or beginning with one of the four patterns, and not equal to a pattern
extended by one of the excluded suffixes. -/
def specMintMatch (d : AbiItem) : Bool :=
  let name := strLower (d.name.getD "")
  isStateChanging d
    && decide (1 ≤ d.inputs)
    && (["mint", "createtoken", "generatetoken", "print"].any fun p =>
          leadsWith p.data name.data
            && !(["role", "ed", "er"].any fun suf => name == p ++ suf))

/-- The DangerousOwnership rule exactly as the specification states it
(claim C2): the lowered name is an exact element of the closed set. -/
def specOwnershipMatch (d : AbiItem) : Bool :=
  let name := strLower (d.name.getD "")
  ["transferownership", "renounceownership", "setowner", "updateowner",
   "changeowner", "addowner", "removeowner", "setadmin", "changeadmin",
   "transferadmin", "claimownership"].contains name

/-- The scoring rule exactly as the specification states it (claim C4):
weights 35/40/25 plus a capped multi-hit bonus computed from the total
number of matched function names. -/
def specScoreClaimed (a : AnalysisResults) : Int :=
  let base : Int := (if a.has_mint then 35 else 0)
    + (if a.has_ownership then 40 else 0)
    + (if a.has_hidden_taxes then 25 else 0)
  let count : Int :=
    a.mint_functions.length + a.owner_functions.length + a.tax_functions.length
  base + (if 1 < count then min ((count - 1) * 10) 20 else 0)

/-- The scoring rule the code actually implements, written in the
specification style (amended claim C4): additive weights 30/40/30 and
no multi-hit bonus. -/
def specScoreAmended (a : AnalysisResults) : Int :=
  (if a.has_mint then 30 else 0)
    + (if a.has_ownership then 40 else 0)
    + (if a.has_hidden_taxes then 30 else 0)

/-- The verdict table the code actually implements, written in the
specification style (amended claim C5): three bands with thresholds 70
and 30, every score below 30 (including 0) sharing the low label. -/
def specVerdictAmended (s : Int) : String :=
  if 70 ≤ s then "🚨 CRITICAL RISK: High probability of scam"
  else if 30 ≤ s then "⚠️ MEDIUM RISK: Multiple red flags detected"
  else "✅ LOW RISK: No critical issues found"

/-- Lowercase hexadecimal digit, for the address pattern of claim
C9. -/
def isLowerHexCh (c : Char) : Bool :=
  c.isDigit || (decide ('a' ≤ c) && decide (c ≤ 'f'))

/-- The address acceptance rule exactly as the specification states it
(claim C9): after lowercasing, the characters `0x` followed by exactly
40 hexadecimal digits. -/
def specAddressValid (s : String) : Bool :=
  match (strLower s).data with
  | '0' :: 'x' :: rest => rest.length == 40 && rest.all isLowerHexCh
  | _ => false

/-- The address acceptance rule the code actually implements, written
in the specification style (amended claim C9): the two characters `0x`
in that exact case, total length 42, and a remainder that after
removing trailing whitespace is a nonempty hexadecimal digit sequence
in either case, possibly containing single underscores each followed by
a digit. -/
def amendedAddressValid (s : String) : Bool :=
  leadsWith ['0', 'x'] s.data
    && s.data.length == 42
    && (let body := dropEndSpace (s.data.drop 2)
        !body.isEmpty && hexGroups body)

/-! Helper lemmas about the string machinery and the analyzer. -/

theorem leadsWith_iff : ∀ (p l : List Char), leadsWith p l = true ↔ p <+: l
  | [], l => by simp [leadsWith]
  | a :: ps, [] => by simp [leadsWith]
  | a :: ps, b :: bs => by
    simp [leadsWith, List.cons_prefix_cons, leadsWith_iff ps bs]

theorem hasSub_iff : ∀ (p l : List Char), hasSub p l = true ↔ p <:+: l
  | p, [] => by simp [hasSub, leadsWith_iff]
  | p, c :: rest => by
    rw [hasSub, List.infix_cons_iff]
    simp [leadsWith_iff, hasSub_iff p rest]

theorem applyMint_has_ownership (n : String) (i : Nat) (r : AnalysisResults) :
    (applyMint n i r).has_ownership = r.has_ownership := by
  unfold applyMint; split <;> rfl

theorem applyMint_has_hidden_taxes (n : String) (i : Nat) (r : AnalysisResults) :
    (applyMint n i r).has_hidden_taxes = r.has_hidden_taxes := by
  unfold applyMint; split <;> rfl

theorem applyMint_owner_functions (n : String) (i : Nat) (r : AnalysisResults) :
    (applyMint n i r).owner_functions = r.owner_functions := by
  unfold applyMint; split <;> rfl

theorem applyMint_tax_functions (n : String) (i : Nat) (r : AnalysisResults) :
    (applyMint n i r).tax_functions = r.tax_functions := by
  unfold applyMint; split <;> rfl

theorem applyOwner_has_mint (n : String) (r : AnalysisResults) :
    (applyOwner n r).has_mint = r.has_mint := by
  unfold applyOwner; split <;> rfl

theorem applyOwner_has_hidden_taxes (n : String) (r : AnalysisResults) :
    (applyOwner n r).has_hidden_taxes = r.has_hidden_taxes := by
  unfold applyOwner; split <;> rfl

theorem applyOwner_mint_functions (n : String) (r : AnalysisResults) :
    (applyOwner n r).mint_functions = r.mint_functions := by
  unfold applyOwner; split <;> rfl

theorem applyOwner_tax_functions (n : String) (r : AnalysisResults) :
    (applyOwner n r).tax_functions = r.tax_functions := by
  unfold applyOwner; split <;> rfl

theorem applyTax_has_mint (n : String) (r : AnalysisResults) :
    (applyTax n r).has_mint = r.has_mint := by
  unfold applyTax; split <;> rfl

theorem applyTax_has_ownership (n : String) (r : AnalysisResults) :
    (applyTax n r).has_ownership = r.has_ownership := by
  unfold applyTax; split <;> rfl

theorem applyTax_mint_functions (n : String) (r : AnalysisResults) :
    (applyTax n r).mint_functions = r.mint_functions := by
  unfold applyTax; split <;> rfl

theorem applyTax_owner_functions (n : String) (r : AnalysisResults) :
    (applyTax n r).owner_functions = r.owner_functions := by
  unfold applyTax; split <;> rfl

theorem applyMint_has_mint (n : String) (i : Nat) (r : AnalysisResults) :
    (applyMint n i r).has_mint
      = (r.has_mint || ((mint_keywords.any fun kw => strHas n kw) && decide (0 < i))) := by
  unfold applyMint
  cases hc : ((mint_keywords.any fun kw => strHas n kw) && decide (0 < i)) <;> simp [hc]

theorem applyOwner_has_ownership (n : String) (r : AnalysisResults) :
    (applyOwner n r).has_ownership
      = (r.has_ownership || (owner_keywords.any fun kw => strHas n kw)) := by
  unfold applyOwner
  cases hc : (owner_keywords.any fun kw => strHas n kw) <;> simp [hc]

theorem applyTax_has_hidden_taxes (n : String) (r : AnalysisResults) :
    (applyTax n r).has_hidden_taxes
      = (r.has_hidden_taxes || (tax_keywords.any fun kw => strHas n kw)) := by
  unfold applyTax
  cases hc : (tax_keywords.any fun kw => strHas n kw) <;> simp [hc]

theorem applyMint_mint_functions (n : String) (i : Nat) (r : AnalysisResults) :
    (applyMint n i r).mint_functions
      = (if ((mint_keywords.any fun kw => strHas n kw) && decide (0 < i)) = true then
          r.mint_functions ++ [n] else r.mint_functions) := by
  unfold applyMint
  cases hc : ((mint_keywords.any fun kw => strHas n kw) && decide (0 < i)) <;> simp [hc]

theorem applyOwner_owner_functions (n : String) (r : AnalysisResults) :
    (applyOwner n r).owner_functions
      = (if (owner_keywords.any fun kw => strHas n kw) = true then
          r.owner_functions ++ [n] else r.owner_functions) := by
  unfold applyOwner
  cases hc : (owner_keywords.any fun kw => strHas n kw) <;> simp [hc]

theorem applyTax_tax_functions (n : String) (r : AnalysisResults) :
    (applyTax n r).tax_functions
      = (if (tax_keywords.any fun kw => strHas n kw) = true then
          r.tax_functions ++ [n] else r.tax_functions) := by
  unfold applyTax
  cases hc : (tax_keywords.any fun kw => strHas n kw) <;> simp [hc]

theorem analyze_singleton (d : AbiItem) :
    analyze_contract_abi [d] = processItem emptyResults d := rfl

theorem dropEndSpace_cons_nospace (c : Char) (l : List Char) (h : isPySpace c = false) :
    dropEndSpace (c :: l) = c :: dropEndSpace l := by
  rw [dropEndSpace]; simp [h]

theorem pyHexIntOk_0x (s : String) (t : List Char) (hd : s.data = '0' :: 'x' :: t) :
    pyHexIntOk s = (!(dropEndSpace t).isEmpty && hexGroups (dropEndSpace t)) := by
  unfold pyHexIntOk
  rw [hd, List.dropWhile_cons]
  have h0 : isPySpace '0' = false := rfl
  have hx : isPySpace 'x' = false := rfl
  rw [if_neg (by simp [h0])]
  rw [dropEndSpace_cons_nospace _ _ h0, dropEndSpace_cons_nospace _ _ hx]
  have hs : stripSign ('0' :: 'x' :: dropEndSpace t) = '0' :: 'x' :: dropEndSpace t := rfl
  rw [hs]
  rfl

theorem is_valid_eq_amended (s : String) :
    is_valid_ethereum_address s = amendedAddressValid s := by
  unfold is_valid_ethereum_address amendedAddressValid
  cases hlw : leadsWith ['0', 'x'] s.data
  · simp
  · have hp : ['0', 'x'] <+: s.data := (leadsWith_iff _ _).1 hlw
    rcases hp with ⟨t, ht⟩
    have hd : s.data = '0' :: 'x' :: t := ht.symm
    rw [pyHexIntOk_0x s t hd, hd]
    simp

theorem processItem_mut (r : AnalysisResults) (i : AbiItem) (m : Option String) :
    processItem r { i with stateMutability := m } = processItem r i := by
  cases i; rfl

theorem analyze_map_mut : ∀ (abi : List AbiItem) (r : AnalysisResults) (m : Option String),
    List.foldl processItem r (abi.map fun i => { i with stateMutability := m })
      = List.foldl processItem r abi
  | [], _, _ => rfl
  | i :: rest, r, m => by
    simp only [List.map_cons, List.foldl_cons, processItem_mut]
    exact analyze_map_mut rest _ m

theorem computeRiskScore_eq_spec (a : AnalysisResults) :
    computeRiskScore a = specScoreAmended a := by
  unfold computeRiskScore specScoreAmended
  cases hm : a.has_mint <;> cases ho : a.has_ownership <;>
    cases htx : a.has_hidden_taxes <;> norm_num

theorem computeRiskScore_bounds (a : AnalysisResults) :
    0 ≤ computeRiskScore a ∧ computeRiskScore a ≤ 100 := by
  unfold computeRiskScore
  cases hm : a.has_mint <;> cases ho : a.has_ownership <;>
    cases htx : a.has_hidden_taxes <;> norm_num

/-! The claims. -/

set_option maxRecDepth 10000

/-- Claim C1, counterexample: the function `minter` (one input,
state-changing) is rejected by the classification rule as the
specification states it, yet the code classifies it as a dangerous mint
function, because the code matches the keyword `mint` as a bare
substring of the name with no suffix exclusion. -/
theorem claim_C1_counterexample :
    specMintMatch ⟨some "function", some "minter", 1, some "nonpayable"⟩ = false
      ∧ (analyze_contract_abi
          [⟨some "function", some "minter", 1, some "nonpayable"⟩]).has_mint = true
      ∧ (analyze_contract_abi
          [⟨some "function", some "minter", 1, some "nonpayable"⟩]).mint_functions
          = ["minter"] := by
  refine ⟨by decide, by decide, by decide⟩

/-- Claim C1 as amended: for a descriptor of kind `function` the code
reports a dangerous mint match if and only if the input count is at
least 1 and the lowercased name CONTAINS one of the keywords `mint`,
`createtokens`, `generatetokens` as a substring; mutability is never
consulted and there are no suffix exclusions, so `minter` and `minted`
do match. -/
theorem claim_C1_amended (d : AbiItem) :
    (analyze_contract_abi [d]).has_mint = true ↔
      d.type = some "function" ∧ 1 ≤ d.inputs ∧
        ∃ kw ∈ mint_keywords, kw.data <:+: (strLower (d.name.getD "")).data := by
  rw [analyze_singleton]
  unfold processItem
  cases htype : (d.type == some "function")
  · have hne : d.type ≠ some "function" := by simpa using htype
    simp [hne, emptyResults]
  · have heq : d.type = some "function" := by simpa using htype
    rw [if_pos rfl]
    rw [applyTax_has_mint, applyOwner_has_mint, applyMint_has_mint]
    simp only [emptyResults, Bool.false_or, Bool.and_eq_true, List.any_eq_true,
      decide_eq_true_eq, strHas, hasSub_iff, heq, true_and]
    constructor
    · rintro ⟨h1, h2⟩; exact ⟨h2, h1⟩
    · rintro ⟨h1, h2⟩; exact ⟨h2, h1⟩

/-- Claim C1, witness for the amended rule: the one-input state-changing
function `minted` is classified as a dangerous mint match. -/
theorem claim_C1_witness :
    (analyze_contract_abi
        [⟨some "function", some "minted", 1, some "nonpayable"⟩]).has_mint = true :=
  (claim_C1_amended ⟨some "function", some "minted", 1, some "nonpayable"⟩).2
    ⟨rfl, by decide, "mint", by decide, by decide⟩

/-- Claim C2, counterexample: `setadmin` is in the closed exact-match
set the specification gives, but the code does not classify it (its
keyword list has no admin entries); conversely `xtransferownership`
merely contains `transferownership` as a proper substring, which the
specification says must not match, yet the code matches it. -/
theorem claim_C2_counterexample :
    specOwnershipMatch ⟨some "function", some "setadmin", 1, some "nonpayable"⟩ = true
      ∧ (analyze_contract_abi
          [⟨some "function", some "setadmin", 1, some "nonpayable"⟩]).has_ownership = false
      ∧ specOwnershipMatch
          ⟨some "function", some "xtransferownership", 1, some "nonpayable"⟩ = false
      ∧ (analyze_contract_abi
          [⟨some "function", some "xtransferownership", 1,
            some "nonpayable"⟩]).has_ownership = true := by
  refine ⟨by decide, by decide, by decide, by decide⟩

/-- Claim C2 as amended: for a descriptor of kind `function` the code
reports a dangerous ownership match if and only if the lowercased name
CONTAINS one of `transferownership`, `renounceownership`, `setowner`,
`updateowner`, `addowner`, `removeowner` as a substring (the set has no
admin or claim entries, and containment rather than exact equality is
used; the name `ownership` still does not match because it contains
none of the six keywords). -/
theorem claim_C2_amended (d : AbiItem) :
    (analyze_contract_abi [d]).has_ownership = true ↔
      d.type = some "function" ∧
        ∃ kw ∈ owner_keywords, kw.data <:+: (strLower (d.name.getD "")).data := by
  rw [analyze_singleton]
  unfold processItem
  cases htype : (d.type == some "function")
  · have hne : d.type ≠ some "function" := by simpa using htype
    simp [hne, emptyResults]
  · have heq : d.type = some "function" := by simpa using htype
    rw [if_pos rfl]
    rw [applyTax_has_ownership, applyOwner_has_ownership]
    rw [applyMint_has_ownership]
    simp only [emptyResults, Bool.false_or, List.any_eq_true,
      strHas, hasSub_iff, heq, true_and]

/-- Claim C3, counterexample: a `view` function named `mint` with one
input is classified as a dangerous mint function and raises the risk
score of its contract from 0 to 30, contradicting the rule that view
and pure descriptors get no primary category and never change the
score. -/
theorem claim_C3_counterexample :
    (analyze_contract_abi
        [⟨some "function", some "mint", 1, some "view"⟩]).has_mint = true
      ∧ (analyzedResult "0x0000000000000000000000000000000000000000"
          [⟨some "function", some "mint", 1, some "view"⟩]).risk_score = 30
      ∧ (analyzedResult "0x0000000000000000000000000000000000000000"
          ([] : List AbiItem)).risk_score = 0 := by
  refine ⟨by decide, by decide, by decide⟩

/-- Claim C3 as amended: the classifier never consults mutability, so
replacing every mutability marker in an ABI leaves the analysis
unchanged, and a view descriptor is classified by exactly the same
name and input rules as a state-changing one (settles the concrete
view `mint`, which scores 30). -/
theorem claim_C3_amended :
    (∀ (contract_abi : List AbiItem) (m : Option String),
        analyze_contract_abi (contract_abi.map fun i => { i with stateMutability := m })
          = analyze_contract_abi contract_abi)
      ∧ (analyzedResult "0x0000000000000000000000000000000000000000"
          [⟨some "function", some "mint", 1, some "view"⟩]).risk_score = 30 := by
  refine ⟨fun contract_abi m => analyze_map_mut contract_abi emptyResults m, by decide⟩

/-- Claim C4, counterexample: for the one-function ABI containing a
state-changing `mint` with one input, the scoring rule of the
specification yields 35 while the code computes 30 (its weights are
30/40/30 and it has no multi-hit bonus). -/
theorem claim_C4_counterexample :
    specScoreClaimed (analyze_contract_abi
        [⟨some "function", some "mint", 1, some "nonpayable"⟩]) = 35
      ∧ (analyzedResult "0x0000000000000000000000000000000000000000"
          [⟨some "function", some "mint", 1, some "nonpayable"⟩]).risk_score = 30 := by
  refine ⟨by decide, by decide⟩

/-- Claim C4 as amended: the risk score is the additive sum of 30 for a
mint match, 40 for an ownership match and 30 for a hidden-tax match,
with no multi-hit bonus; in particular an ABI whose only function is a
state-changing `mint` with one input scores exactly 30. -/
theorem claim_C4_amended :
    (∀ (contract_address : String) (contract_abi : List AbiItem),
        (analyzedResult contract_address contract_abi).risk_score
          = specScoreAmended (analyze_contract_abi contract_abi))
      ∧ (analyzedResult "0x0000000000000000000000000000000000000000"
          [⟨some "function", some "mint", 1, some "nonpayable"⟩]).risk_score = 30 := by
  refine ⟨fun _ contract_abi => computeRiskScore_eq_spec _, by decide⟩

/-- Claim C5, counterexample: no assignment of six distinct labels can
realize the threshold table of the specification, because the code
gives scores 60 and 40 the same verdict string (its table has only the
three bands 0 and below 30, 30 to 69, and 70 and up). -/
theorem claim_C5_counterexample :
    ¬ ∃ crit high med mode low sec : String,
        crit ≠ high ∧ high ≠ med ∧ med ≠ mode ∧ mode ≠ low ∧ low ≠ sec
          ∧ (∀ s : Int, 80 ≤ s → verdictOf s = crit)
          ∧ (∀ s : Int, 60 ≤ s ∧ s ≤ 79 → verdictOf s = high)
          ∧ (∀ s : Int, 40 ≤ s ∧ s ≤ 59 → verdictOf s = med)
          ∧ (∀ s : Int, 20 ≤ s ∧ s ≤ 39 → verdictOf s = mode)
          ∧ (∀ s : Int, 5 ≤ s ∧ s ≤ 19 → verdictOf s = low)
          ∧ verdictOf 0 = sec := by
  rintro ⟨crit, high, med, mode, low, sec,
    -, hne, -, -, -, -, h60, h40, -, -, -⟩
  have e1 : verdictOf 60 = high := h60 60 (by constructor <;> norm_num)
  have e2 : verdictOf 40 = med := h40 40 (by constructor <;> norm_num)
  apply hne
  rw [← e1, ← e2]
  rfl


/-- Claim C5 as amended: the verdict is a pure total function of the
score with three bands: 70 and above is the critical label, 30 to 69
the medium label, and everything else (score 0 as well as every score
below 30) the low label. -/
theorem claim_C5_amended (s : Int) : verdictOf s = specVerdictAmended s := by
  unfold verdictOf specVerdictAmended
  by_cases h0 : s = 0
  · subst h0; norm_num
  · have hb : (s == 0) = false := by simpa using h0
    rw [hb]
    norm_num

/-- Claim C6, counterexample: the degraded bundle returned when the
upstream reports an unverified contract carries risk score 0, not the
non-zero elevated-risk constant the specification demands. -/
theorem claim_C6_counterexample :
    (analyze_bundle "0x0000000000000000000000000000000000000000"
        FetchOutcome.notVerified).risk_score = 0
      ∧ (analyze_bundle "0x0000000000000000000000000000000000000000"
          FetchOutcome.notVerified).analysis = emptyResults := by
  refine ⟨rfl, rfl⟩

/-- Claim C6 as amended: when the fetch reports that the contract is
not verified or no ABI is available, the orchestrator returns a fixed
degraded bundle with all categories absent, the constant risk score 0,
and the fixed cannot-analyze verdict string, without running the
scoring pipeline. -/
theorem claim_C6_amended (contract_address : String) :
    analyze_bundle contract_address FetchOutcome.notVerified =
      { address := contract_address,
        analysis := emptyResults,
        risk_score := 0,
        verdict := "❓ Cannot analyze: Contract not verified or ABI not available",
        source := "Etherscan API" } := rfl

/-- Claim C6, witness: the amended degraded bundle at a concrete
address. -/
theorem claim_C6_witness :
    analyze_bundle "0x0000000000000000000000000000000000000000"
        FetchOutcome.notVerified =
      { address := "0x0000000000000000000000000000000000000000",
        analysis := emptyResults,
        risk_score := 0,
        verdict := "❓ Cannot analyze: Contract not verified or ABI not available",
        source := "Etherscan API" } :=
  claim_C6_amended "0x0000000000000000000000000000000000000000"

/-- Claim C7, counterexample: the one-function ABI containing only the
view function `balanceOf` matches no category, and the pipeline then
returns score 0, not the nonzero floor 5 the specification demands for
an inspected-and-clean contract. -/
theorem claim_C7_counterexample :
    (analyze_contract_abi
        [⟨some "function", some "balanceOf", 0, some "view"⟩]).has_mint = false
      ∧ (analyze_contract_abi
          [⟨some "function", some "balanceOf", 0, some "view"⟩]).has_ownership = false
      ∧ (analyze_contract_abi
          [⟨some "function", some "balanceOf", 0, some "view"⟩]).has_hidden_taxes = false
      ∧ (analyzedResult "0x0000000000000000000000000000000000000000"
          [⟨some "function", some "balanceOf", 0, some "view"⟩]).risk_score = 0
      ∧ (analyzedResult "0x0000000000000000000000000000000000000000"
          [⟨some "function", some "balanceOf", 0, some "view"⟩]).risk_score ≠ 5 := by
  refine ⟨by decide, by decide, by decide, by decide, by decide⟩

/-- Claim C7 as amended: the analyze-then-score pipeline is a total
function on every well-formed function list (the empty list included),
and whenever no category matched the returned score is exactly 0 -
there is no nonzero floor distinguishing an inspected contract from an
uninspected one. -/
theorem claim_C7_amended (contract_address : String) (contract_abi : List AbiItem)
    (h1 : (analyze_contract_abi contract_abi).has_mint = false)
    (h2 : (analyze_contract_abi contract_abi).has_ownership = false)
    (h3 : (analyze_contract_abi contract_abi).has_hidden_taxes = false) :
    (analyzedResult contract_address contract_abi).risk_score = 0 := by
  show computeRiskScore (analyze_contract_abi contract_abi) = 0
  unfold computeRiskScore
  rw [h1, h2, h3]
  norm_num

/-- Claim C7, witness: the amended statement applied to the non-empty
clean ABI containing only `balanceOf`. -/
theorem claim_C7_witness :
    (analyzedResult "0x0000000000000000000000000000000000000000"
        [⟨some "function", some "balanceOf", 0, some "view"⟩]).risk_score = 0 :=
  claim_C7_amended "0x0000000000000000000000000000000000000000"
    [⟨some "function", some "balanceOf", 0, some "view"⟩]
    (by decide) (by decide) (by decide)

/-- Claim C8, confirmed: on every analysis path - the degraded
not-verified bundle as well as the analyzed bundle of an arbitrary ABI -
the risk score is an integer between 0 and 100 inclusive. -/
theorem claim_C8 (contract_address : String) (f : FetchOutcome) :
    0 ≤ (analyze_bundle contract_address f).risk_score
      ∧ (analyze_bundle contract_address f).risk_score ≤ 100 := by
  cases f
  · exact ⟨le_refl 0, by show (0 : Int) ≤ 100; norm_num⟩
  · exact computeRiskScore_bounds _

/-- Claim C9, counterexample, both directions: the address written with
an upper-case `0X` marker satisfies the case-insensitive pattern of the
specification but is rejected by the code (its startswith check is
case-sensitive), while a 42-character address containing an underscore
is rejected by the pattern but accepted by the code, because Python
`int` permits underscores between digits. -/
theorem claim_C9_counterexample :
    specAddressValid "0X1111111111111111111111111111111111111111" = true
      ∧ is_valid_ethereum_address "0X1111111111111111111111111111111111111111" = false
      ∧ specAddressValid "0x1_11111111111111111111111111111111111111" = false
      ∧ is_valid_ethereum_address "0x1_11111111111111111111111111111111111111" = true := by
  refine ⟨by decide, by decide, by decide, by decide⟩

/-- Claim C9 as amended: an address is accepted exactly when it starts
with the two characters `0x` in that case, has length 42, and its
remaining 40 characters - after removing trailing whitespace - form a
nonempty sequence of hexadecimal digits of either case in which every
underscore is followed by a digit; and the endpoint answers the 400
client error exactly for the rejected addresses, whatever the fetch
outcome, so no analysis ever runs for them. -/
theorem claim_C9_amended :
    (∀ s : String, is_valid_ethereum_address s = amendedAddressValid s)
      ∧ (∀ (s : String) (f : FetchOutcome),
          analyze_endpoint s f = Except.error (400, "Invalid Ethereum address format")
            ↔ is_valid_ethereum_address s = false) := by
  constructor
  · exact is_valid_eq_amended
  · intro s f
    unfold analyze_endpoint
    cases hv : is_valid_ethereum_address s
    · simp
    · simp

/-- Claim C10, flag and list agreement for a single loop step, assuming
it already holds of the accumulator. -/
theorem processItem_flags (r : AnalysisResults) (item : AbiItem)
    (h1 : r.has_mint = true ↔ r.mint_functions ≠ [])
    (h2 : r.has_ownership = true ↔ r.owner_functions ≠ [])
    (h3 : r.has_hidden_taxes = true ↔ r.tax_functions ≠ []) :
    ((processItem r item).has_mint = true ↔ (processItem r item).mint_functions ≠ [])
      ∧ ((processItem r item).has_ownership = true
          ↔ (processItem r item).owner_functions ≠ [])
      ∧ ((processItem r item).has_hidden_taxes = true
          ↔ (processItem r item).tax_functions ≠ []) := by
  unfold processItem
  cases htype : (item.type == some "function")
  · exact ⟨h1, h2, h3⟩
  · rw [if_pos rfl]
    refine ⟨?_, ?_, ?_⟩
    · rw [applyTax_has_mint, applyOwner_has_mint, applyMint_has_mint,
        applyTax_mint_functions, applyOwner_mint_functions, applyMint_mint_functions]
      cases hc : ((mint_keywords.any fun kw =>
          strHas (strLower (item.name.getD "")) kw) && decide (0 < item.inputs)) <;>
        simp [hc, h1]
    · rw [applyTax_has_ownership, applyOwner_has_ownership, applyMint_has_ownership,
        applyTax_owner_functions, applyOwner_owner_functions, applyMint_owner_functions]
      cases hc : (owner_keywords.any fun kw =>
          strHas (strLower (item.name.getD "")) kw) <;> simp [hc, h2]
    · rw [applyTax_has_hidden_taxes, applyOwner_has_hidden_taxes,
        applyMint_has_hidden_taxes, applyTax_tax_functions, applyOwner_tax_functions,
        applyMint_tax_functions]
      cases hc : (tax_keywords.any fun kw =>
          strHas (strLower (item.name.getD "")) kw) <;> simp [hc, h3]

/-- Claim C10, flag and list agreement propagated along the whole
fold. -/
theorem foldl_flags : ∀ (contract_abi : List AbiItem) (r : AnalysisResults),
    (r.has_mint = true ↔ r.mint_functions ≠ []) →
    (r.has_ownership = true ↔ r.owner_functions ≠ []) →
    (r.has_hidden_taxes = true ↔ r.tax_functions ≠ []) →
    ((List.foldl processItem r contract_abi).has_mint = true
        ↔ (List.foldl processItem r contract_abi).mint_functions ≠ [])
      ∧ ((List.foldl processItem r contract_abi).has_ownership = true
          ↔ (List.foldl processItem r contract_abi).owner_functions ≠ [])
      ∧ ((List.foldl processItem r contract_abi).has_hidden_taxes = true
          ↔ (List.foldl processItem r contract_abi).tax_functions ≠ [])
  | [], r, h1, h2, h3 => ⟨h1, h2, h3⟩
  | i :: rest, r, h1, h2, h3 => by
    simp only [List.foldl_cons]
    have hstep := processItem_flags r i h1 h2 h3
    exact foldl_flags rest (processItem r i) hstep.1 hstep.2.1 hstep.2.2

/-- Claim C10, confirmed: in every analyzer result each category
presence flag agrees with its matched-name list - the flag is true
exactly when the list is non-empty, for all three categories. -/
theorem claim_C10 (contract_abi : List AbiItem) :
    ((analyze_contract_abi contract_abi).has_mint = true
        ↔ (analyze_contract_abi contract_abi).mint_functions ≠ [])
      ∧ ((analyze_contract_abi contract_abi).has_ownership = true
          ↔ (analyze_contract_abi contract_abi).owner_functions ≠ [])
      ∧ ((analyze_contract_abi contract_abi).has_hidden_taxes = true
          ↔ (analyze_contract_abi contract_abi).tax_functions ≠ []) :=
  foldl_flags contract_abi emptyResults (by simp [emptyResults])
    (by simp [emptyResults]) (by simp [emptyResults])
